import Mathlib

/-!
Shallow embedding of the link-layer core in src/src/lib.rs:
the connection manager (`SerialInterface.connect`), the link state
(`StateCommon` / `get_port`), and the frame codec (`send_payload`,
`send_cmd`).  Machine bytes are modelled as `Nat`, Rust `Instant`
timestamps as `Nat`, and a Rust panic (out-of-bounds index or slice)
as `Option.none`.  The platform serial layer (`serialport` crate) is
modelled by explicit parameters: the enumeration result is passed in
as an `Except`, and the port-open primitive as a function argument.
-/

namespace PcInterfaceShared

/-! ## Constants from src/src/lib.rs -/

def FC_SERIAL_NUMBER : String := "AN"

def SLCAN_PRODUCT_KEYWORD : String := "slcan"

def BAUD : Nat := 115200

def BAUD_AIRPORT : Nat := 9600

def DISCONNECTED_TIMEOUT_MS : Nat := 1000

/-! ## Protocol catalog (external `anyleaf_usb` crate) -/

/-- Modelled from the spec: the start-byte constant of the external protocol
catalog (the `anyleaf_usb` crate, not under src).  The spec fixes only its
position in the frame (byte 0), not its value; the value here is a
placeholder and no theorem depends on it. -/
def MSG_START : Nat := 69

/-- Modelled from the spec: the originator/device-code constant identifying
the PC side, from the external protocol catalog.  Placeholder value; no
theorem depends on it. -/
def DEVICE_CODE_PC : Nat := 2

/-- Modelled from the spec: the payload start index.  The spec fixes the
wire layout as `[START, DEVICE_CODE, MSG_TYPE, PAYLOAD, CRC]`, so the
payload begins at byte 3. -/
def PAYLOAD_START_I : Nat := 3

/-- Modelled from the spec: the fixed polynomial-derived CRC lookup table of
the external protocol catalog.  Its contents are not given by the spec;
the theorems depend only on which bytes the checksum is computed over,
never on the table entries. -/
def CRC_LUT : List Nat := List.range 256

/-- Modelled from the spec: the table-driven checksum of the external
protocol catalog, folded over all given bytes in order (the source also
passes the byte count, which duplicates the slice length and is dropped
here). -/
def calc_crc (lut : List Nat) (data : List Nat) : Nat :=
  data.foldl (fun crc b => lut.getD ((crc ^^^ b) % 256) 0) 0

/-! ## Data model of the connection manager -/

/-- USB metadata of one enumerated endpoint (`serialport::UsbPortInfo`). -/
structure UsbPortInfo where
  serial_number : Option String
  product : Option String
  manufacturer : Option String
  deriving DecidableEq

/-- The port kind of an enumerated endpoint (`serialport::SerialPortType`);
the non-USB constructors are collapsed into `other`, which connect skips. -/
inductive SerialPortType where
  | UsbPort (info : UsbPortInfo)
  | other
  deriving DecidableEq

/-- One enumerated endpoint (`serialport::SerialPortInfo`). -/
structure SerialPortInfo where
  port_name : String
  port_type : SerialPortType
  deriving DecidableEq

/-- An open channel handle (`Box<dyn SerialPort>`), observable by the
endpoint name it was opened on and the baud it was opened at. -/
structure Port where
  name : String
  baud : Nat
  deriving DecidableEq

/-- `serialport::ErrorKind`; the payload of the `Io` constructor is dropped. -/
inductive SerialErrorKind where
  | NoDevice
  | InvalidInput
  | Unknown
  | Io
  deriving DecidableEq

/-- `serialport::Error`: a kind plus a description string. -/
structure SerialError where
  kind : SerialErrorKind
  description : String
  deriving DecidableEq

inductive ConnectionStatus where
  | NotConnected
  | Connected
  deriving DecidableEq

inductive ConnectionType where
  | Usb
  | Can
  deriving DecidableEq

/-- `impl Default for ConnectionType` (src/src/lib.rs:70). -/
def ConnectionType.default : ConnectionType := .Usb

structure SerialInterface where
  serial_port : Option Port
  connection_type : ConnectionType
  deriving DecidableEq

/-- `#[derive(Default)]` on `SerialInterface` (src/src/lib.rs:77). -/
def SerialInterface.default : SerialInterface :=
  { serial_port := none, connection_type := ConnectionType.default }

/-! ## Keyword matching

`product_name.to_lowercase().contains(keyword)` in the source; spelled
out on character lists so that it is kernel-executable. -/

/-- The needle (first argument) starts the hay (second argument). -/
def strStartsWith : List Char → List Char → Bool
  | [], _ => true
  | _ :: _, [] => false
  | a :: as, b :: bs => a == b && strStartsWith as bs

/-- The needle occurs somewhere in the hay. -/
def strContainsFrom (needle : List Char) : List Char → Bool
  | [] => needle.isEmpty
  | b :: bs => strStartsWith needle (b :: bs) || strContainsFrom needle bs

/-- `s.to_lowercase().contains(kw)` with `kw` already lowercase. -/
def containsKeyword (s kw : String) : Bool :=
  strContainsFrom kw.data (s.data.map Char.toLower)

/-! ## The connection manager (`SerialInterface::connect`, src/src/lib.rs:90-163) -/

/-- The classification block in the loop body of `connect`
(src/src/lib.rs:100-125) for one USB endpoint, given the loop-carried
`connection_type`.  Returns `(correct_port, connection_type, baud)`:
a serial number is checked against `FC_SERIAL_NUMBER`; only when no serial
number is present is the product name checked for the SLCAN keyword (which
also switches the connection type to `Can`); independently, a manufacturer
containing "wch" forces the airport baud and marks the port correct. -/
def classify (connection_type : ConnectionType) (info : UsbPortInfo) :
    Bool × ConnectionType × Nat :=
  let first :=
    match info.serial_number with
    | some sn => (sn == FC_SERIAL_NUMBER, connection_type)
    | none =>
      match info.product with
      | some product_name =>
        if containsKeyword product_name SLCAN_PRODUCT_KEYWORD then
          (true, ConnectionType.Can)
        else
          (false, connection_type)
      | none => (false, connection_type)
  let second :=
    match info.manufacturer with
    | some man =>
      if containsKeyword man "wch" then (true, BAUD_AIRPORT) else (first.1, BAUD)
    | none => (first.1, BAUD)
  (second.1, first.2, second.2)

/-- The enumeration loop of `connect` (src/src/lib.rs:98-160).  `openPort`
models `serialport::new(name, baud).timeout(..).open()`.  The second
component of the result models the report printed on a non-`NoDevice` open
error (kind and description preserved); `NoDevice` is swallowed.  Any open
failure ends the scan (the source's `break` followed by `Self::default()`). -/
def connectLoop (openPort : String → Nat → Except SerialError Port) :
    ConnectionType → List SerialPortInfo → SerialInterface × Option SerialError
  | _, [] => (SerialInterface.default, none)
  | connection_type, port_info :: rest =>
    match port_info.port_type with
    | .other => connectLoop openPort connection_type rest
    | .UsbPort info =>
      if (classify connection_type info).1 then
        match openPort port_info.port_name (classify connection_type info).2.2 with
        | .ok port =>
          ({ serial_port := some port,
             connection_type := (classify connection_type info).2.1 }, none)
        | .error e =>
          match e.kind with
          | .NoDevice => (SerialInterface.default, none)
          | _ => (SerialInterface.default, some e)
      else
        connectLoop openPort (classify connection_type info).2.1 rest

/-- `SerialInterface::connect` (src/src/lib.rs:90-163).  `available_ports`
models the result of `serialport::available_ports()`; if enumeration fails
the default (no port, USB type) is returned at once. -/
def connect (openPort : String → Nat → Except SerialError Port)
    (available_ports : Except String (List SerialPortInfo)) :
    SerialInterface × Option SerialError :=
  match available_ports with
  | .error _ => (SerialInterface.default, none)
  | .ok ports => connectLoop openPort ConnectionType.Usb ports

/-- An open primitive that always succeeds, recording the name and baud it
was called with into the returned handle. -/
def okOpen : String → Nat → Except SerialError Port :=
  fun name baud => .ok { name := name, baud := baud }

/-- An open primitive that always fails with the given error. -/
def errOpen (e : SerialError) : String → Nat → Except SerialError Port :=
  fun _ _ => .error e

/-! ## The link state (`StateCommon`, src/src/lib.rs:167-198) -/

/-- A kind of `std::io::Error`; only `NotConnected` is produced here. -/
inductive IoErrorKind where
  | NotConnected
  deriving DecidableEq

/-- `std::io::Error` as constructed by `io::Error::new(kind, msg)`. -/
structure IoError where
  kind : IoErrorKind
  msg : String
  deriving DecidableEq

structure StateCommon where
  connection_status : ConnectionStatus
  interface : SerialInterface
  last_query : Nat
  last_response : Nat
  deriving DecidableEq

/-- `impl Default for StateCommon` (src/src/lib.rs:175-184): both
timestamps are set to `Instant::now()`, passed here as `now`. -/
def StateCommon.default (now : Nat) : StateCommon :=
  { connection_status := .NotConnected, interface := SerialInterface.default,
    last_query := now, last_response := now }

/-- `StateCommon::get_port` (src/src/lib.rs:188-197): returns the held port
or a `NotConnected` io error.  The state is returned alongside to record
the effect on `self` (there is none). -/
def StateCommon.get_port (s : StateCommon) : Except IoError Port × StateCommon :=
  match s.interface.serial_port with
  | some p => (.ok p, s)
  | none => (.error { kind := .NotConnected, msg := "No device connected" }, s)

/-! ## The frame codec (`send_payload`, `send_cmd`, src/src/lib.rs:200-237) -/

/-- The `MessageType` trait of the external `anyleaf_usb` crate: a message
type exposes its wire value and its declared payload size. -/
structure MessageType where
  val : Nat
  payload_size : Nat
  deriving DecidableEq

/-- `send_payload` (src/src/lib.rs:210-237).  `N` is the total buffer size
(const generic in the source).  The source zeroes an `N`-byte buffer,
writes `MSG_START`, `DEVICE_CODE_PC` and the message-type value at bytes
0..2, copies `payload[..payload_size]` to bytes `PAYLOAD_START_I..`, and
writes the CRC of everything so far at byte `payload_size + PAYLOAD_START_I`;
each of those indexing operations panics when out of bounds, modelled as
`none`.  On success the whole `N`-byte buffer (trailing zeroes included) is
written to the port, modelled by returning it. -/
def send_payload (msg_type : MessageType) (payload : List Nat) (N : Nat) :
    Option (List Nat) :=
  if msg_type.payload_size ≤ payload.length ∧
      msg_type.payload_size + PAYLOAD_START_I < N then
    let filled := [MSG_START, DEVICE_CODE_PC, msg_type.val] ++
      payload.take msg_type.payload_size
    some (filled ++ [calc_crc CRC_LUT filled] ++
      List.replicate (N - (msg_type.payload_size + PAYLOAD_START_I + 1)) 0)
  else
    none

/-- `send_cmd` (src/src/lib.rs:202-204): a payload-less command is sent
through `send_payload` with an empty payload and a fixed buffer size of 4. -/
def send_cmd (msg_type : MessageType) : Option (List Nat) :=
  send_payload msg_type [] 4

/-- The send path as callers of this library compose it: fetch the held
port from the state with `get_port`, then run `send_payload` through it.
`send_payload` receives only the port, so this composition is the entire
effect one send has on a `StateCommon`. -/
def StateCommon.send_payload_from (s : StateCommon) (msg_type : MessageType)
    (payload : List Nat) (N : Nat) :
    Except IoError (Option (List Nat)) × StateCommon :=
  match s.get_port with
  | (.ok _, s1) => (.ok (send_payload msg_type payload N), s1)
  | (.error e, s1) => (.error e, s1)

/-! ## Frame codec lemmas -/

/-- Success equation for `send_payload`: with enough payload bytes and a
large-enough buffer, the result is header, payload prefix, checksum, and
trailing zero padding. -/
theorem send_payload_eq_of_le (msg_type : MessageType) (payload : List Nat)
    (N : Nat) (hp : msg_type.payload_size ≤ payload.length)
    (hN : msg_type.payload_size + PAYLOAD_START_I < N) :
    send_payload msg_type payload N =
      some (([MSG_START, DEVICE_CODE_PC, msg_type.val] ++
          payload.take msg_type.payload_size) ++
        [calc_crc CRC_LUT ([MSG_START, DEVICE_CODE_PC, msg_type.val] ++
          payload.take msg_type.payload_size)] ++
        List.replicate (N - (msg_type.payload_size + PAYLOAD_START_I + 1)) 0) := by
  unfold send_payload
  rw [if_pos ⟨hp, hN⟩]

/-- C2: for a message type of payload size `p` and a payload of at least
`p` bytes, the buffer built by `send_payload` carries the start constant at
byte 0, the PC device code at byte 1, the message-type value at byte 2, the
first `p` payload bytes verbatim from byte 3, and at byte `3 + p` the
table-driven checksum of exactly bytes `0 .. 3 + p - 1`. -/
theorem send_payload_wire_layout (msg_type : MessageType) (payload : List Nat)
    (N : Nat) (hp : msg_type.payload_size ≤ payload.length)
    (hN : msg_type.payload_size + PAYLOAD_START_I + 1 ≤ N) :
    ∃ buf, send_payload msg_type payload N = some buf ∧
      buf.length = N ∧
      buf[0]? = some MSG_START ∧
      buf[1]? = some DEVICE_CODE_PC ∧
      buf[2]? = some msg_type.val ∧
      (buf.drop PAYLOAD_START_I).take msg_type.payload_size =
        payload.take msg_type.payload_size ∧
      buf[msg_type.payload_size + PAYLOAD_START_I]? =
        some (calc_crc CRC_LUT
          (buf.take (msg_type.payload_size + PAYLOAD_START_I))) := by
  have hP : PAYLOAD_START_I = 3 := rfl
  have htl : (payload.take msg_type.payload_size).length = msg_type.payload_size := by
    rw [List.length_take]
    exact min_eq_left hp
  have hfl : ([MSG_START, DEVICE_CODE_PC, msg_type.val] ++
      payload.take msg_type.payload_size).length =
      msg_type.payload_size + PAYLOAD_START_I := by
    simp only [List.length_append, List.length_cons, List.length_nil, htl, hP]
    omega
  have hbt : (([MSG_START, DEVICE_CODE_PC, msg_type.val] ++
        payload.take msg_type.payload_size) ++
      [calc_crc CRC_LUT ([MSG_START, DEVICE_CODE_PC, msg_type.val] ++
        payload.take msg_type.payload_size)] ++
      List.replicate (N - (msg_type.payload_size + PAYLOAD_START_I + 1)) 0).take
        (msg_type.payload_size + PAYLOAD_START_I) =
      [MSG_START, DEVICE_CODE_PC, msg_type.val] ++
        payload.take msg_type.payload_size := by
    have h0 : msg_type.payload_size + PAYLOAD_START_I -
        (([MSG_START, DEVICE_CODE_PC, msg_type.val] ++
          payload.take msg_type.payload_size) ++
          [calc_crc CRC_LUT ([MSG_START, DEVICE_CODE_PC, msg_type.val] ++
            payload.take msg_type.payload_size)]).length = 0 := by
      simp [htl, hP]
    rw [List.take_append_eq_append_take, List.take_append_eq_append_take,
      List.take_of_length_le (le_of_eq hfl), hfl, Nat.sub_self, h0]
    simp
  refine ⟨_, send_payload_eq_of_le msg_type payload N hp (by omega), ?_, ?_, ?_, ?_, ?_, ?_⟩
  · simp only [List.length_append, List.length_cons, List.length_nil,
      List.length_replicate, htl, hP]
    omega
  · simp
  · simp
  · simp
  · rw [hP]
    simp only [List.cons_append, List.nil_append, List.drop_succ_cons, List.drop_zero]
    rw [List.append_assoc, List.take_append_eq_append_take, htl,
      List.take_of_length_le (le_of_eq htl), Nat.sub_self]
    simp
  · rw [hbt]
    rw [List.getElem?_append_left (by
      simp only [List.length_append, List.length_cons, List.length_nil, htl, hP]
      omega)]
    rw [List.getElem?_append_right (le_of_eq hfl), hfl, Nat.sub_self]
    simp

/-- C6: `send_payload` with a buffer one byte short of
`header + payload_size + 1` rejects (the out-of-bounds checksum write),
and every successful call requires `payload_size + PAYLOAD_START_I + 1 ≤ N`. -/
theorem send_payload_capacity_check (msg_type : MessageType) (payload : List Nat)
    (N : Nat) :
    send_payload msg_type payload (msg_type.payload_size + PAYLOAD_START_I) = none ∧
    (∀ buf, send_payload msg_type payload N = some buf →
      msg_type.payload_size + PAYLOAD_START_I + 1 ≤ N) := by
  constructor
  · unfold send_payload
    rw [if_neg]
    rintro ⟨-, h2⟩
    omega
  · intro buf h
    unfold send_payload at h
    by_cases hc : msg_type.payload_size ≤ payload.length ∧
        msg_type.payload_size + PAYLOAD_START_I < N
    · omega
    · rw [if_neg hc] at h
      exact absurd h (by simp)

theorem send_payload_capacity_check_witness :
    send_payload ⟨5, 2⟩ [10, 20] ((⟨5, 2⟩ : MessageType).payload_size + PAYLOAD_START_I) = none ∧
    (⟨5, 2⟩ : MessageType).payload_size + PAYLOAD_START_I + 1 ≤ 6 :=
  ⟨(send_payload_capacity_check ⟨5, 2⟩ [10, 20] 6).1,
   (send_payload_capacity_check ⟨5, 2⟩ [10, 20] 6).2 [69, 2, 5, 10, 20, 92] (by decide)⟩

theorem send_payload_wire_layout_witness :
    ∃ buf, send_payload ⟨5, 2⟩ [10, 20] 6 = some buf ∧
      buf.length = 6 ∧
      buf[0]? = some MSG_START ∧
      buf[1]? = some DEVICE_CODE_PC ∧
      buf[2]? = some 5 ∧
      (buf.drop PAYLOAD_START_I).take 2 = [10, 20].take 2 ∧
      buf[2 + PAYLOAD_START_I]? =
        some (calc_crc CRC_LUT (buf.take (2 + PAYLOAD_START_I))) :=
  send_payload_wire_layout ⟨5, 2⟩ [10, 20] 6 (by decide) (by decide)

/-- C9: a message type with declared payload size 0, sent through
`send_cmd`, yields exactly the 4-byte frame
`[MSG_START, DEVICE_CODE_PC, val, crc of the first three bytes]`. -/
theorem send_cmd_zero_payload (msg_type : MessageType)
    (h : msg_type.payload_size = 0) :
    send_cmd msg_type = some [MSG_START, DEVICE_CODE_PC, msg_type.val,
      calc_crc CRC_LUT [MSG_START, DEVICE_CODE_PC, msg_type.val]] := by
  have heq := send_payload_eq_of_le msg_type [] 4 (by simp [h]) (by rw [h]; decide)
  rw [send_cmd, heq, h]
  simp [PAYLOAD_START_I]

theorem send_cmd_zero_payload_witness :
    send_cmd ⟨5, 0⟩ = some [MSG_START, DEVICE_CODE_PC, 5,
      calc_crc CRC_LUT [MSG_START, DEVICE_CODE_PC, 5]] :=
  send_cmd_zero_payload ⟨5, 0⟩ rfl

/-- C10: `send_cmd` passes an empty payload and a 4-byte buffer, so for a
message type with positive declared payload size it hits the out-of-bounds
slice of the empty payload and fails; its success path is in-bounds exactly
for payload size 0. -/
theorem send_cmd_nonzero_payload_oob (msg_type : MessageType) :
    (0 < msg_type.payload_size → send_cmd msg_type = none) ∧
    (msg_type.payload_size = 0 → (send_cmd msg_type).isSome = true) := by
  constructor
  · intro hpos
    rw [send_cmd]
    unfold send_payload
    rw [if_neg]
    rintro ⟨h1, -⟩
    simp at h1
    omega
  · intro h0
    rw [send_cmd, send_payload_eq_of_le msg_type [] 4 (by simp [h0]) (by rw [h0]; decide)]
    rfl

theorem send_cmd_nonzero_payload_oob_witness :
    send_cmd ⟨7, 1⟩ = none ∧ (send_cmd ⟨6, 0⟩).isSome = true :=
  ⟨(send_cmd_nonzero_payload_oob ⟨7, 1⟩).1 (by decide),
   (send_cmd_nonzero_payload_oob ⟨6, 0⟩).2 rfl⟩

/-! ## Connection manager theorems -/

/-- C3 (counterexample): an endpoint whose serial-number field is present
with a value different from the identity key and whose product name
contains the bridge keyword is, contrary to the claim, neither treated as
a match nor classified `Can`: the product branch sits in the `else` of the
serial-number check, so discovery opens nothing and stays at the default. -/
theorem connect_bridged_with_serial_counterexample :
    classify .Usb ⟨some "XX", some "SLCAN-Adapter", none⟩ = (false, .Usb, BAUD) ∧
    connect okOpen
        (.ok [⟨"ttyUSB0", .UsbPort ⟨some "XX", some "SLCAN-Adapter", none⟩⟩]) =
      ({ serial_port := none, connection_type := .Usb }, none) := by
  decide

/-- C3 (amended): an endpoint whose serial number equals the identity key
is always a match and stays `Usb` (Direct) regardless of product and
manufacturer; whenever any serial-number field is present the product
field is not consulted at all and the type stays `Usb`; only an endpoint
with no serial-number field and a product name containing the bridge
keyword is classified `Can` (Bridged) and treated as a match. -/
theorem classify_serial_number_precedence (info : UsbPortInfo) :
    (info.serial_number = some FC_SERIAL_NUMBER →
      (classify .Usb info).1 = true ∧ (classify .Usb info).2.1 = .Usb) ∧
    (∀ sn, info.serial_number = some sn →
      classify .Usb info = classify .Usb { info with product := none } ∧
      (classify .Usb info).2.1 = .Usb) ∧
    (∀ pn, info.serial_number = none → info.product = some pn →
      containsKeyword pn SLCAN_PRODUCT_KEYWORD = true →
      (classify .Usb info).1 = true ∧ (classify .Usb info).2.1 = .Can) := by
  obtain ⟨osn, oprod, oman⟩ := info
  refine ⟨?_, ?_, ?_⟩
  · intro h
    cases h
    cases oman with
    | none => simp [classify, FC_SERIAL_NUMBER]
    | some man =>
      by_cases hw : containsKeyword man "wch" = true <;>
        simp [classify, FC_SERIAL_NUMBER, hw]
  · rintro sn rfl
    cases oman with
    | none => simp [classify]
    | some man =>
      by_cases hw : containsKeyword man "wch" = true <;> simp [classify, hw]
  · rintro pn hsn hpn hkw
    obtain rfl : osn = none := by simpa using hsn
    obtain rfl : oprod = some pn := by simpa using hpn
    cases oman with
    | none => simp [classify, hkw]
    | some man =>
      by_cases hw : containsKeyword man "wch" = true <;>
        simp [classify, hkw, hw]

theorem classify_serial_number_precedence_witness :
    ((classify .Usb ⟨some "AN", some "SLCAN-Adapter", some "WCH.CN"⟩).1 = true ∧
      (classify .Usb ⟨some "AN", some "SLCAN-Adapter", some "WCH.CN"⟩).2.1 = .Usb) ∧
    (classify .Usb ⟨some "XX", some "SLCAN-Adapter", none⟩ =
        classify .Usb ⟨some "XX", none, none⟩ ∧
      (classify .Usb ⟨some "XX", some "SLCAN-Adapter", none⟩).2.1 = .Usb) ∧
    ((classify .Usb ⟨none, some "SLCAN-Adapter", none⟩).1 = true ∧
      (classify .Usb ⟨none, some "SLCAN-Adapter", none⟩).2.1 = .Can) :=
  ⟨(classify_serial_number_precedence ⟨some "AN", some "SLCAN-Adapter", some "WCH.CN"⟩).1 rfl,
   (classify_serial_number_precedence ⟨some "XX", some "SLCAN-Adapter", none⟩).2.1 "XX" rfl,
   (classify_serial_number_precedence ⟨none, some "SLCAN-Adapter", none⟩).2.2
     "SLCAN-Adapter" rfl rfl (by decide)⟩

/-- C5: when the first matching endpoint fails to open, a `NoDevice` error
is swallowed (nothing reported) while any other error is reported with its
kind and description preserved; in both cases the scan stops at once —
whatever candidates follow in `rest`, the result is the default interface. -/
theorem connect_open_failure_policy
    (openPort : String → Nat → Except SerialError Port) (ct : ConnectionType)
    (name : String) (info : UsbPortInfo) (rest : List SerialPortInfo)
    (e : SerialError) (hmatch : (classify ct info).1 = true)
    (hopen : openPort name (classify ct info).2.2 = .error e) :
    (e.kind = .NoDevice →
      connectLoop openPort ct (⟨name, .UsbPort info⟩ :: rest) =
        (SerialInterface.default, none)) ∧
    (e.kind ≠ .NoDevice →
      connectLoop openPort ct (⟨name, .UsbPort info⟩ :: rest) =
        (SerialInterface.default, some e)) := by
  obtain ⟨ek, desc⟩ := e
  cases ek with
  | NoDevice =>
    refine ⟨fun _ => ?_, fun hk => absurd rfl hk⟩
    unfold connectLoop
    simp only [hmatch, if_true, hopen]
  | InvalidInput =>
    refine ⟨fun hk => SerialErrorKind.noConfusion hk, fun _ => ?_⟩
    unfold connectLoop
    simp only [hmatch, if_true, hopen]
  | Unknown =>
    refine ⟨fun hk => SerialErrorKind.noConfusion hk, fun _ => ?_⟩
    unfold connectLoop
    simp only [hmatch, if_true, hopen]
  | Io =>
    refine ⟨fun hk => SerialErrorKind.noConfusion hk, fun _ => ?_⟩
    unfold connectLoop
    simp only [hmatch, if_true, hopen]

theorem connect_open_failure_policy_witness :
    (connectLoop (errOpen ⟨.NoDevice, "gone"⟩) .Usb
        (⟨"ttyACM0", .UsbPort ⟨some "AN", none, none⟩⟩ ::
          [⟨"ttyACM1", .UsbPort ⟨some "AN", none, none⟩⟩]) =
      (SerialInterface.default, none)) ∧
    (connectLoop (errOpen ⟨.Io, "busy"⟩) .Usb
        (⟨"ttyACM0", .UsbPort ⟨some "AN", none, none⟩⟩ ::
          [⟨"ttyACM1", .UsbPort ⟨some "AN", none, none⟩⟩]) =
      (SerialInterface.default, some ⟨.Io, "busy"⟩)) :=
  ⟨(connect_open_failure_policy (errOpen ⟨.NoDevice, "gone"⟩) .Usb "ttyACM0"
      ⟨some "AN", none, none⟩ [⟨"ttyACM1", .UsbPort ⟨some "AN", none, none⟩⟩]
      ⟨.NoDevice, "gone"⟩ (by decide) rfl).1 rfl,
   (connect_open_failure_policy (errOpen ⟨.Io, "busy"⟩) .Usb "ttyACM0"
      ⟨some "AN", none, none⟩ [⟨"ttyACM1", .UsbPort ⟨some "AN", none, none⟩⟩]
      ⟨.Io, "busy"⟩ (by decide) rfl).2 (by decide)⟩

/-- C7: any matched endpoint whose manufacturer contains "wch" is opened at
the airport baud 9600 rather than the primary baud, and the manufacturer
keyword leaves the connection-kind label exactly what it would be with no
manufacturer field at all. -/
theorem connect_manufacturer_baud_override (ct : ConnectionType) (name : String)
    (info : UsbPortInfo) (rest : List SerialPortInfo) (man : String)
    (hman : info.manufacturer = some man)
    (hkw : containsKeyword man "wch" = true) :
    connectLoop okOpen ct (⟨name, .UsbPort info⟩ :: rest) =
      ({ serial_port := some { name := name, baud := BAUD_AIRPORT },
         connection_type := (classify ct info).2.1 }, none) ∧
    (classify ct info).2.1 = (classify ct { info with manufacturer := none }).2.1 := by
  obtain ⟨osn, oprod, oman⟩ := info
  cases hman
  have hcl : (classify ct ⟨osn, oprod, some man⟩).1 = true ∧
      (classify ct ⟨osn, oprod, some man⟩).2.2 = BAUD_AIRPORT := by
    simp [classify, hkw]
  constructor
  · unfold connectLoop
    simp only [hcl.1, if_true, hcl.2, okOpen]
  · simp [classify, hkw]

theorem connect_manufacturer_baud_override_witness :
    connectLoop okOpen .Usb [⟨"ttyUSB1", .UsbPort ⟨some "AN", none, some "WCH.CN"⟩⟩] =
      ({ serial_port := some { name := "ttyUSB1", baud := BAUD_AIRPORT },
         connection_type := (classify .Usb ⟨some "AN", none, some "WCH.CN"⟩).2.1 }, none) ∧
    (classify .Usb ⟨some "AN", none, some "WCH.CN"⟩).2.1 =
      (classify .Usb ⟨some "AN", none, none⟩).2.1 :=
  connect_manufacturer_baud_override .Usb "ttyUSB1" ⟨some "AN", none, some "WCH.CN"⟩
    [] "WCH.CN" rfl (by decide)

/-- C8: when enumeration itself fails, `connect` returns the default
interface (no port held, USB type) with nothing reported, whatever the
open primitive would have done — no open is ever attempted. -/
theorem connect_enumeration_failure
    (openPort : String → Nat → Except SerialError Port) (err : String) :
    connect openPort (.error err) =
      ({ serial_port := none, connection_type := .Usb }, none) := rfl

/-! ## Link state theorems -/

/-- C1 (counterexample): at a moment when discover-and-open would succeed
(an endpoint with the identity serial number is enumerated and opens fine),
`get_port` on a state holding no channel still fails with the not-connected
error and leaves the state — channel and status included — untouched: it
never invokes `connect` and adopts nothing. -/
theorem get_port_no_rediscovery_counterexample :
    (connect okOpen (.ok [⟨"ttyACM0", .UsbPort ⟨some "AN", none, none⟩⟩])).1.serial_port =
      some ⟨"ttyACM0", BAUD⟩ ∧
    (StateCommon.get_port ⟨.NotConnected, ⟨none, .Usb⟩, 0, 0⟩).1 =
      .error ⟨.NotConnected, "No device connected"⟩ ∧
    (StateCommon.get_port ⟨.NotConnected, ⟨none, .Usb⟩, 0, 0⟩).2 =
      ⟨.NotConnected, ⟨none, .Usb⟩, 0, 0⟩ :=
  ⟨by decide, rfl, rfl⟩

/-- C1 (amended): `get_port` never re-runs discovery and never mutates the
state: it returns the held channel when one is present, and otherwise fails
immediately with the not-connected io error, leaving the state (and hence
its NotConnected status) exactly as it was. -/
theorem get_port_returns_held_channel_only (s : StateCommon) :
    (s.get_port).2 = s ∧
    (s.interface.serial_port = none →
      (s.get_port).1 =
        .error { kind := .NotConnected, msg := "No device connected" }) ∧
    (∀ p, s.interface.serial_port = some p → (s.get_port).1 = .ok p) := by
  rcases h : s.interface.serial_port with _ | p
  · exact ⟨by simp [StateCommon.get_port, h], fun _ => by simp [StateCommon.get_port, h],
      fun p hp => Option.noConfusion hp⟩
  · refine ⟨by simp [StateCommon.get_port, h], fun hn => Option.noConfusion hn,
      fun q hq => ?_⟩
    cases hq
    simp [StateCommon.get_port, h]

theorem get_port_returns_held_channel_only_witness :
    ((StateCommon.default 0).get_port).1 =
      .error { kind := .NotConnected, msg := "No device connected" } :=
  (get_port_returns_held_channel_only (StateCommon.default 0)).2.1 rfl

/-- C4 (counterexample): a send that reaches the channel layer (the state
holds a port, the frame is built and written) leaves `last_query` at its
prior value 5 — nothing in `send_payload` or `send_cmd` touches the
timestamp, contrary to the claim that it is updated on every attempt. -/
theorem send_no_last_query_update_counterexample :
    (StateCommon.send_payload_from
        ⟨.Connected, ⟨some ⟨"ttyACM0", 115200⟩, .Usb⟩, 5, 5⟩ ⟨3, 0⟩ [] 4).1 =
      .ok (some [MSG_START, DEVICE_CODE_PC, 3,
        calc_crc CRC_LUT [MSG_START, DEVICE_CODE_PC, 3]]) ∧
    (StateCommon.send_payload_from
        ⟨.Connected, ⟨some ⟨"ttyACM0", 115200⟩, .Usb⟩, 5, 5⟩ ⟨3, 0⟩ [] 4).2.last_query = 5 :=
  ⟨rfl, by decide⟩

/-- C4 (amended): no send through a `StateCommon` modifies the state at
all — `last_query` keeps whatever value it had; the only write to
`last_query` in the library is the `Default` constructor, which sets it to
the construction time. -/
theorem send_leaves_last_query_unchanged (s : StateCommon)
    (msg_type : MessageType) (payload : List Nat) (N : Nat) (now : Nat) :
    (s.send_payload_from msg_type payload N).2 = s ∧
    (StateCommon.default now).last_query = now := by
  refine ⟨?_, rfl⟩
  rcases h : s.interface.serial_port with _ | p <;>
    simp [StateCommon.send_payload_from, StateCommon.get_port, h]

end PcInterfaceShared
